import Mathlib

/-!
Verification of src/analyze_health_data.py against its specification.

The script is embedded shallowly: each Python function becomes a Lean
definition of the same name, file-system effects become explicit state
passing over an FS record, and the numpy / os library calls made by the
script are modelled from their documented semantics (noted at each
definition).  Machine floats never decide a property here: the only
floating-point values in the program are column means of small integers,
which are carried exactly (as an integer sum together with a count) and
rendered with round-half-even at the first decimal, matching the Python
format specifier .1f on exactly representable values.
-/

namespace HealthData

/-! ### Character and string utilities -/

/-- Characters stripped from both ends of an input line by the genfromtxt
line splitter (it strips spaces, carriage returns and newlines before
splitting on the delimiter). -/
def isLineStripChar (c : Char) : Bool :=
  c == ' ' || c == '\r' || c == '\n'

/-- Whitespace accepted and ignored around a number by the Python int and
float constructors. -/
def isPyWhitespace (c : Char) : Bool :=
  c == ' ' || c == '\t' || c == '\n' || c == '\r' || c == '\x0b' || c == '\x0c'

/-- Remove characters satisfying p from both ends of a character list. -/
def stripEnds (p : Char → Bool) (l : List Char) : List Char :=
  ((l.dropWhile p).reverse.dropWhile p).reverse

/-- Push one character onto the first piece of a split. -/
def consHead (x : Char) : List (List Char) → List (List Char)
  | [] => [[x]]
  | piece :: rest => (x :: piece) :: rest

/-- Split a character list at every occurrence of the separator character.
Mirrors the Python str.split method with an explicit separator: the result
is never empty, and empty pieces are kept. -/
def splitOnC (c : Char) : List Char → List (List Char)
  | [] => [[]]
  | x :: xs =>
    if x == c then [] :: splitOnC c xs else consHead x (splitOnC c xs)

/-- Numeric value of a list of decimal digit characters (most significant
first). -/
def natVal (cs : List Char) : Nat :=
  cs.foldl (fun a c => 10 * a + (c.toNat - 48)) 0

/-- The value of a nonempty all-digit character list, and none otherwise. -/
def decimalDigits? (cs : List Char) : Option Nat :=
  if cs.isEmpty then none
  else if cs.all (fun c => c.isDigit) then some (natVal cs) else none

/-- Python int(s): surrounding whitespace is ignored, an optional sign is
followed by at least one decimal digit; anything else fails.  (Underscore
digit grouping and non-decimal bases are not modelled; no input in this
development uses them.) -/
def parsePyInt (cs : List Char) : Option Int :=
  match stripEnds isPyWhitespace cs with
  | '-' :: rest => (decimalDigits? rest).map (fun n => -(n : Int))
  | '+' :: rest => (decimalDigits? rest).map (fun n => (n : Int))
  | other => (decimalDigits? other).map (fun n => (n : Int))

/-- Magnitude part of a Python float literal: digits with an optional
decimal point, at least one digit overall. -/
def parseDecimalMag (cs : List Char) : Option ℚ :=
  match splitOnC '.' cs with
  | [ip] => (decimalDigits? ip).map (fun n => (n : ℚ))
  | [ip, fp] =>
    if ip.isEmpty && fp.isEmpty then none
    else if ip.all (fun c => c.isDigit) && fp.all (fun c => c.isDigit) then
      some ((natVal ip : ℚ) + (natVal fp : ℚ) / ((10 : ℚ) ^ fp.length))
    else none
  | _ => none

/-- Python float(s) restricted to plain decimal literals: whitespace and an
optional sign around a digit string with an optional point.  (Exponent,
infinity and nan spellings are not modelled; no input in this development
uses them.) -/
def parsePyFloat (cs : List Char) : Option ℚ :=
  match stripEnds isPyWhitespace cs with
  | '-' :: rest => (parseDecimalMag rest).map (fun q => -q)
  | '+' :: rest => parseDecimalMag rest
  | other => parseDecimalMag other

/-- Decimal digit characters of a natural number, most significant first,
via a fuel argument that keeps the recursion structural. -/
def natDigitsAux : Nat → Nat → List Char
  | 0, _ => []
  | fuel + 1, n =>
    if n < 10 then [Char.ofNat (48 + n)]
    else natDigitsAux fuel (n / 10) ++ [Char.ofNat (48 + n % 10)]

/-- Decimal digit characters of a natural number (n itself is always enough
fuel since the value shrinks by a factor of ten each step). -/
def natDigits (n : Nat) : List Char := natDigitsAux (n + 1) n

/-- Python str of a nonnegative integer. -/
def natStr (n : Nat) : String := String.mk (natDigits n)

/-! ### Data model: one row of the structured array

The dtype fixed in load_data has eight fields: two strings of width at
most 10 and 20, four 32-bit integers, one 32-bit float and a final string
of width at most 10.  Integer fields are carried as unbounded integers
(every value a claim touches is far from the 32-bit bounds), the float
field as an exact rational where none models the nan fill value. -/

structure Reading where
  patient_id : String
  timestamp : String
  heart_rate : Int
  blood_pressure_systolic : Int
  blood_pressure_diastolic : Int
  temperature : Option ℚ
  glucose_level : Int
  sensor_id : String
deriving DecidableEq

inductive LoadError where
  | fileAccessError
  | parseError
deriving DecidableEq

/-- Conversion of one field of an integer column.  Models the loose
conversion genfromtxt applies with an explicit dtype: a field that the
Python int constructor rejects (including an empty field) is replaced by
the default integer filling value -1 instead of raising. -/
def intField (cs : List Char) : Int :=
  (parsePyInt cs).getD (-1)

/-- Conversion of one field of a float column: an unconvertible field
becomes the nan filling value, modelled as none. -/
def floatField (cs : List Char) : Option ℚ :=
  parsePyFloat cs

/-- Conversion of one field of a string column of the given width: the
text is truncated to the width, never rejected. -/
def strField (width : Nat) (cs : List Char) : String :=
  String.mk (cs.take width)

/-- Build one Reading from the eight comma-separated fields of a row, in
the column order fixed by the dtype in load_data. -/
def mkReading (f1 f2 f3 f4 f5 f6 f7 f8 : List Char) : Reading :=
  { patient_id := strField 10 f1
  , timestamp := strField 20 f2
  , heart_rate := intField f3
  , blood_pressure_systolic := intField f4
  , blood_pressure_diastolic := intField f5
  , temperature := floatField f6
  , glucose_level := intField f7
  , sensor_id := strField 10 f8 }

/-- The genfromtxt line splitter applied to one raw line: everything from
the first hash character on is discarded (the comments parameter defaults
to the hash character), then spaces, carriage returns and newlines are
stripped from both ends. -/
def lineCore (l : List Char) : List Char :=
  stripEnds isLineStripChar (l.takeWhile (fun c => !(c == '#')))

/-- Row parsing loop of genfromtxt over the lines after the skipped
header: each line first loses any hash-comment suffix, is then stripped
of spaces, carriage returns and newlines at both ends, and lines left
empty by this (blank lines and comment-only lines) are skipped; the rest
are split on the comma delimiter and must yield exactly eight fields,
and a row with any other field count makes the whole call raise
(invalid_raise is true by default), modelled as parseError. -/
def parseLines : List (List Char) → Except LoadError (List Reading)
  | [] => .ok []
  | l :: ls =>
    let core := lineCore l
    if core.isEmpty then parseLines ls
    else
      match splitOnC ',' core with
      | [f1, f2, f3, f4, f5, f6, f7, f8] =>
        match parseLines ls with
        | .error e => .error e
        | .ok rest => .ok (mkReading f1 f2 f3 f4 f5 f6 f7 f8 :: rest)
      | _ => .error .parseError

/-- The array genfromtxt returns.  With the default ndmin of zero the
result is squeezed, so a file with exactly one data row yields a
zero-dimensional record rather than a one-dimensional table; this is the
record constructor.  Any other row count keeps shape (N,). -/
inductive NpData where
  | record (r : Reading)
  | table (rows : List Reading)

/-- The squeeze genfromtxt applies to its result array. -/
def squeeze1 (rows : List Reading) : NpData :=
  match rows with
  | [r] => .record r
  | rows => .table rows

/-- load_data from the source: np.genfromtxt on the named file with comma
delimiter, the fixed eight-column dtype and skip_header one.  The file
system is passed in as the optional file content: a missing or unreadable
path makes genfromtxt raise an OSError, modelled as fileAccessError. -/
def load_data (contents : Option String) : Except LoadError NpData :=
  match contents with
  | none => .error .fileAccessError
  | some text =>
    (parseLines ((splitOnC '\n' text.data).drop 1)).map squeeze1

/-- The rows a loaded array holds, whatever its shape. -/
def NpData.rows : NpData → List Reading
  | .record r => [r]
  | .table rows => rows

/-- Extraction of one numeric column, as in data applied to a field name:
works on both the squeezed and the tabular shape. -/
def NpData.col (d : NpData) (f : Reading → Int) : List Int :=
  d.rows.map f

/-! ### Aggregator -/

/-- Round a rational num / den (den positive) times ten to the nearest
integer, ties to even: the tenths digit the Python format specifier .1f
produces on an exactly representable value. -/
def roundTenthsHalfEven (num : Int) (den : Nat) : Int :=
  let a := 10 * num
  let q := a.fdiv den
  let r := a.fmod den
  if 2 * r < (den : Int) then q
  else if (den : Int) < 2 * r then q + 1
  else if q % 2 = 0 then q else q + 1

/-- Python format of the exact value num / den (den positive) with the
format specifier .1f: sign, integer part, point, one digit. -/
def pyFormat1f (num : Int) (den : Nat) : String :=
  let t := (roundTenthsHalfEven num den).natAbs
  let sign := if num < 0 then "-" else ""
  sign ++ String.mk (natDigits (t / 10)) ++ "." ++ String.mk (natDigits (t % 10))

/-- The mean of a column followed by the .1f format, as in the f-strings
of calculate_statistics: numpy mean of an empty column is nan (with a
runtime warning, not an error) and nan formats as the three-letter string
nan; a nonempty column has mean sum / length. -/
def npMean1f (xs : List Int) : String :=
  if xs.isEmpty then "nan" else pyFormat1f xs.sum xs.length

/-- The dictionary calculate_statistics returns, with its three keys. -/
structure StatsSummary where
  avg_heart_rate : String
  avg_systolic_bp : String
  avg_glucose : String
deriving DecidableEq

/-- calculate_statistics from the source: the mean of the heart rate,
systolic blood pressure and glucose columns, each formatted to one
decimal place. -/
def calculate_statistics (data : NpData) : StatsSummary :=
  { avg_heart_rate := npMean1f (data.col (fun r => r.heart_rate))
  , avg_systolic_bp := npMean1f (data.col (fun r => r.blood_pressure_systolic))
  , avg_glucose := npMean1f (data.col (fun r => r.glucose_level)) }

/-- The dictionary find_abnormal_readings returns, with its three keys. -/
structure AbnormalCounts where
  high_heart_rate : Nat
  high_blood_pressure : Nat
  high_glucose : Nat
deriving DecidableEq

/-- find_abnormal_readings from the source: each comparison builds a
boolean column and its sum counts the true entries; the int conversion
at the end is the identity on the count. -/
def find_abnormal_readings (data : NpData) : AbnormalCounts :=
  { high_heart_rate :=
      ((data.col (fun r => r.heart_rate)).map (fun v => decide (90 < v))).count true
  , high_blood_pressure :=
      ((data.col (fun r => r.blood_pressure_systolic)).map (fun v => decide (130 < v))).count true
  , high_glucose :=
      ((data.col (fun r => r.glucose_level)).map (fun v => decide (110 < v))).count true }

/-! ### Reporter -/

/-- generate_report from the source: the concatenated f-string pieces,
with the counts and the total rendered by Python str. -/
def generate_report (stats : StatsSummary) (abnormal : AbnormalCounts)
    (total_readings : Nat) : String :=
  "Health Sensor Data Analysis Report\n" ++
  "==================================\n\n" ++
  "Dataset Summary:\n" ++
  "- Total readings: " ++ natStr total_readings ++ "\n\n" ++
  "Average Measurements:\n" ++
  "- Heart Rate: " ++ stats.avg_heart_rate ++ " bpm\n" ++
  "- Systolic BP: " ++ stats.avg_systolic_bp ++ " mmHg\n" ++
  "- Glucose Level: " ++ stats.avg_glucose ++ " mg/dL\n\n" ++
  "Abnormal Readings:\n" ++
  "- High Heart Rate (>90): " ++ natStr abnormal.high_heart_rate ++ " readings\n" ++
  "- High Blood Pressure (>130): " ++ natStr abnormal.high_blood_pressure ++ " readings\n" ++
  "- High Glucose (>110): " ++ natStr abnormal.high_glucose ++ " readings\n"

/-- Join lines with newline separators. -/
def joinLines : List String → String
  | [] => ""
  | [l] => l
  | l :: l2 :: ls => l ++ "\n" ++ joinLines (l2 :: ls)

/-- Modelled from the spec: the exact report template of the Reporter
section, given as fifteen lines (with the blank lines of the template and
a final newline) into which the total, the three formatted averages and
the three counts are substituted. -/
def spec_report_template (stats : StatsSummary) (abnormal : AbnormalCounts)
    (total : Nat) : String :=
  joinLines
    [ "Health Sensor Data Analysis Report"
    , "=================================="
    , ""
    , "Dataset Summary:"
    , "- Total readings: " ++ natStr total
    , ""
    , "Average Measurements:"
    , "- Heart Rate: " ++ stats.avg_heart_rate ++ " bpm"
    , "- Systolic BP: " ++ stats.avg_systolic_bp ++ " mmHg"
    , "- Glucose Level: " ++ stats.avg_glucose ++ " mg/dL"
    , ""
    , "Abnormal Readings:"
    , "- High Heart Rate (>90): " ++ natStr abnormal.high_heart_rate ++ " readings"
    , "- High Blood Pressure (>130): " ++ natStr abnormal.high_blood_pressure ++ " readings"
    , "- High Glucose (>110): " ++ natStr abnormal.high_glucose ++ " readings"
    , "" ]

/-! ### Writer and file system -/

/-- File-system state: the content found at each path, and which
directories exist. -/
structure FS where
  files : String → Option String
  dirs : String → Bool

/-- os.path.dirname on posix paths: everything before the final slash,
where a trailing run of slashes is removed unless the head is nothing but
slashes; a path with no slash has the empty dirname. -/
def dirname (p : String) : String :=
  let upto := (p.data.reverse.dropWhile (fun c => !(c == '/'))).reverse
  if upto.isEmpty then ""
  else if upto.all (fun c => c == '/') then String.mk upto
  else String.mk ((upto.reverse.dropWhile (fun c => c == '/')).reverse)

/-- The chain of directories os.makedirs creates for a target directory:
every initial run of slash-separated components. -/
def dirChain (d : String) : List String :=
  let parts := (splitOnC '/' d.data).map String.mk
  (List.range parts.length).map (fun i => String.intercalate "/" (parts.take (i + 1)))

inductive SaveError where
  | fileNotFound
deriving DecidableEq

/-- save_report from the source: os.makedirs on the dirname of the
destination with exist_ok, then open for writing and write the string.
os.makedirs raises FileNotFoundError when handed the empty name, which is
exactly what dirname produces for a bare filename, and in that case
nothing has been written; otherwise the directory chain is created and
the file is replaced by the report verbatim. -/
def save_report (report : String) (filename : String) (fs : FS) :
    FS × Option SaveError :=
  let d := dirname filename
  if d = "" then (fs, some .fileNotFound)
  else
    ({ files := fun p => if p = filename then some report else fs.files p
     , dirs := fun p => if p ∈ dirChain d then true else fs.dirs p }, none)

/-! ### Main pipeline -/

inductive RunError where
  | fileAccess
  | parse
  | typeError
  | save
deriving DecidableEq

/-- Python len on the loaded array: defined on shape (N,), but a
zero-dimensional array is unsized and len raises a TypeError. -/
def npLen : NpData → Option Nat
  | .record _ => none
  | .table rows => some rows.length

/-- The input path fixed in main. -/
def inputPath : String := "health_data.csv"

/-- The output path fixed in main. -/
def outputPath : String := "output/analysis_report.txt"

/-- main from the source: load, compute statistics and abnormal counts,
take the length, render the report and save it.  Any exception aborts the
run with the file system unchanged from that point on; the trailing
success print has no file-system effect and is not modelled. -/
def main (fs : FS) : FS × Option RunError :=
  match load_data (fs.files inputPath) with
  | .error .fileAccessError => (fs, some .fileAccess)
  | .error .parseError => (fs, some .parse)
  | .ok data =>
    let stats := calculate_statistics data
    let abnormal := find_abnormal_readings data
    match npLen data with
    | none => (fs, some .typeError)
    | some total_readings =>
      let report := generate_report stats abnormal total_readings
      match save_report report outputPath fs with
      | (fs2, none) => (fs2, none)
      | (_, some _) => (fs, some .save)

/-! ### Concrete fixtures used by witnesses and counterexamples -/

/-- Join lines with newline characters, the inverse of the newline split
for newline-free lines. -/
def joinNL : List (List Char) → List Char
  | [] => []
  | [l] => l
  | l :: l2 :: ls => l ++ '\n' :: joinNL (l2 :: ls)

/-- A reading with the given heart rate and fixed unremarkable values in
every other column. -/
def exReading (hr : Int) : Reading :=
  { patient_id := "P0", timestamp := "t", heart_rate := hr
  , blood_pressure_systolic := 120, blood_pressure_diastolic := 80
  , temperature := none, glucose_level := 100, sensor_id := "S1" }

/-- A file system with no files and no directories. -/
def emptyFS : FS := { files := fun _ => none, dirs := fun _ => false }

/-- Input whose first data row carries the unparseable text abc in the
integer heart-rate column, followed by one well-typed row. -/
def badTypeFile : String :=
  "patient_id,timestamp,heart_rate,bp_sys,bp_dia,temp,glucose,sensor\nP001,2024-01-15,abc,120,80,36.6,100,S001\nP002,2024-01-15,88,121,81,36.5,101,S002"

/-- A file system whose input file holds a header row and exactly one
valid data row. -/
def oneRowFS : FS :=
  { files := fun p => if p = inputPath
      then some "patient_id,timestamp,heart_rate,bp_sys,bp_dia,temp,glucose,sensor\nP001,2024-01-15 10:30,95,120,80,36.6,110,S001"
      else none
  , dirs := fun _ => false }

/-- A file system whose input file holds a header row and two valid data
rows. -/
def twoRowFS : FS :=
  { files := fun p => if p = inputPath
      then some "patient_id,timestamp,heart_rate,bp_sys,bp_dia,temp,glucose,sensor\nP001,2024-01-15 10:30,95,120,80,36.6,115,S001\nP002,2024-01-15 10:35,80,135,81,36.5,101,S002"
      else none
  , dirs := fun _ => false }

/-- A string of the shape the format specifier .1f promises: an integer
part free of decimal points, one point, and exactly one digit after it. -/
def oneDecimalString (s : String) : Prop :=
  ∃ intPart d, s.data = intPart ++ '.' :: [d] ∧ '.' ∉ intPart ∧ d.isDigit = true

/-! ### Supporting lemmas -/

theorem strDataAppend (s t : String) : (s ++ t).data = s.data ++ t.data := rfl

theorem mkData (l : List Char) : (String.mk l).data = l := rfl

theorem natStr_data (n : Nat) : (natStr n).data = natDigits n := rfl

theorem stringEqOfData {s t : String} (h : s.data = t.data) : s = t := by
  cases s; cases t; exact congrArg String.mk h

theorem count_true_map (p : α → Bool) (l : List α) :
    (l.map p).count true = (l.filter p).length := by
  induction l with
  | nil => rfl
  | cons a t ih => by_cases h : p a <;> simp [h, ih, List.count_cons]

theorem natDigitsAux_mem {fuel n : Nat} {c : Char} (h : c ∈ natDigitsAux fuel n) :
    ∃ k, k < 10 ∧ c = Char.ofNat (48 + k) := by
  induction fuel generalizing n with
  | zero => simp [natDigitsAux] at h
  | succ f ih =>
    rw [natDigitsAux] at h
    by_cases h10 : n < 10
    · rw [if_pos h10] at h
      simp at h
      exact ⟨n, h10, h⟩
    · rw [if_neg h10] at h
      rcases List.mem_append.1 h with h1 | h1
      · exact ih h1
      · simp at h1
        exact ⟨n % 10, Nat.mod_lt _ (by omega), h1⟩

theorem digitChar_ne_dot : ∀ k, k < 10 → Char.ofNat (48 + k) ≠ '.' := by decide

theorem digitChar_isDigit : ∀ k, k < 10 → (Char.ofNat (48 + k)).isDigit = true := by decide

theorem natDigits_single {n : Nat} (h : n < 10) : natDigits n = [Char.ofNat (48 + n)] := by
  simp [natDigits, natDigitsAux, h]

/-- The string pyFormat1f produces always has exactly one digit after a
unique decimal point, whatever the value of the mean. -/
theorem oneDecimal_pyFormat1f (num : Int) (den : Nat) :
    oneDecimalString (pyFormat1f num den) := by
  have hlt : (roundTenthsHalfEven num den).natAbs % 10 < 10 := Nat.mod_lt _ (by omega)
  refine ⟨(if num < 0 then "-" else "" : String).data
      ++ natDigits ((roundTenthsHalfEven num den).natAbs / 10),
    Char.ofNat (48 + (roundTenthsHalfEven num den).natAbs % 10), ?_, ?_, ?_⟩
  · simp only [pyFormat1f, strDataAppend, mkData, natDigits_single hlt, List.append_assoc]
    rfl
  · intro hmem
    rcases List.mem_append.1 hmem with h1 | h1
    · by_cases hs : num < 0
      · rw [if_pos hs] at h1
        simp at h1
      · rw [if_neg hs] at h1
        simp at h1
    · obtain ⟨k, hk, he⟩ := natDigitsAux_mem h1
      exact digitChar_ne_dot k hk (he ▸ rfl)
  · exact digitChar_isDigit _ hlt

theorem splitOnC_not_mem {c : Char} {l : List Char} (h : c ∉ l) : splitOnC c l = [l] := by
  induction l with
  | nil => rfl
  | cons x xs ih =>
    have h1 : ¬(x == c) := by
      simp only [beq_iff_eq]
      exact fun e => h (e ▸ List.mem_cons_self x xs)
    have h2 : c ∉ xs := fun m => h (List.mem_cons_of_mem _ m)
    simp [splitOnC, h1, ih h2, consHead]

theorem splitOnC_append {c : Char} {l : List Char} (rest : List Char) (h : c ∉ l) :
    splitOnC c (l ++ c :: rest) = l :: splitOnC c rest := by
  induction l with
  | nil => simp [splitOnC]
  | cons x xs ih =>
    have h1 : ¬(x == c) := by
      simp only [beq_iff_eq]
      exact fun e => h (e ▸ List.mem_cons_self x xs)
    have h2 : c ∉ xs := fun m => h (List.mem_cons_of_mem _ m)
    simp [splitOnC, h1, ih h2, consHead]

theorem splitOnC_joinNL_pair {a b : List Char} (ha : '\n' ∉ a) (hb : '\n' ∉ b) :
    splitOnC '\n' (joinNL [a, b]) = [a, b] := by
  show splitOnC '\n' (a ++ '\n' :: b) = [a, b]
  rw [splitOnC_append b ha, splitOnC_not_mem hb]

theorem parseLines_cons_badlen (l : List Char) (ls : List (List Char))
    (h1 : lineCore l ≠ [])
    (h2 : (splitOnC ',' (lineCore l)).length ≠ 8) :
    parseLines (l :: ls) = .error .parseError := by
  rw [parseLines]
  rw [if_neg (by simpa using h1)]
  rcases e1 : splitOnC ',' (lineCore l) with _ | ⟨f1, t1⟩
  · rfl
  rcases t1 with _ | ⟨f2, t2⟩
  · rfl
  rcases t2 with _ | ⟨f3, t3⟩
  · rfl
  rcases t3 with _ | ⟨f4, t4⟩
  · rfl
  rcases t4 with _ | ⟨f5, t5⟩
  · rfl
  rcases t5 with _ | ⟨f6, t6⟩
  · rfl
  rcases t6 with _ | ⟨f7, t7⟩
  · rfl
  rcases t7 with _ | ⟨f8, t8⟩
  · rfl
  rcases t8 with _ | ⟨f9, t9⟩
  · exact absurd (by simp [e1]) h2
  · rfl

/-! ### Claim theorems -/

/-- C1: find_abnormal_readings returns, for every loaded dataset, three
counts equal to the exact number of rows with heart rate strictly above
90, systolic blood pressure strictly above 130, and glucose strictly
above 110, each counted independently over the same rows; each count is
at most the row count, and a row whose heart rate is exactly 90 is never
among the rows counted as high heart rate. -/
theorem claim_C1_abnormal_counts (d : NpData) :
    (find_abnormal_readings d).high_heart_rate
        = (d.rows.filter (fun r => decide (90 < r.heart_rate))).length
  ∧ (find_abnormal_readings d).high_blood_pressure
        = (d.rows.filter (fun r => decide (130 < r.blood_pressure_systolic))).length
  ∧ (find_abnormal_readings d).high_glucose
        = (d.rows.filter (fun r => decide (110 < r.glucose_level))).length
  ∧ (find_abnormal_readings d).high_heart_rate ≤ d.rows.length
  ∧ (find_abnormal_readings d).high_blood_pressure ≤ d.rows.length
  ∧ (find_abnormal_readings d).high_glucose ≤ d.rows.length
  ∧ ∀ r ∈ d.rows.filter (fun r => decide (90 < r.heart_rate)), r.heart_rate ≠ 90 := by
  have e1 : (find_abnormal_readings d).high_heart_rate
      = (d.rows.filter (fun r => decide (90 < r.heart_rate))).length := by
    simp [find_abnormal_readings, NpData.col, List.map_map, count_true_map, Function.comp_def]
  have e2 : (find_abnormal_readings d).high_blood_pressure
      = (d.rows.filter (fun r => decide (130 < r.blood_pressure_systolic))).length := by
    simp [find_abnormal_readings, NpData.col, List.map_map, count_true_map, Function.comp_def]
  have e3 : (find_abnormal_readings d).high_glucose
      = (d.rows.filter (fun r => decide (110 < r.glucose_level))).length := by
    simp [find_abnormal_readings, NpData.col, List.map_map, count_true_map, Function.comp_def]
  refine ⟨e1, e2, e3, ?_, ?_, ?_, ?_⟩
  · rw [e1]; exact List.length_filter_le _ _
  · rw [e2]; exact List.length_filter_le _ _
  · rw [e3]; exact List.length_filter_le _ _
  · intro r hr
    have := (List.mem_filter.1 hr).2
    simp at this
    omega

/-- Witness for C1 at a concrete two-row dataset: the high heart rate
count is the filtered row count, it is within the bound, and the row kept
by the filter has heart rate different from 90. -/
theorem claim_C1_abnormal_counts_witness :
    (find_abnormal_readings (NpData.table [exReading 95, exReading 80])).high_heart_rate
        = ((NpData.table [exReading 95, exReading 80]).rows.filter
            (fun r => decide (90 < r.heart_rate))).length
  ∧ (find_abnormal_readings (NpData.table [exReading 95, exReading 80])).high_heart_rate ≤ 2
  ∧ (exReading 95).heart_rate ≠ 90 := by
  have h := claim_C1_abnormal_counts (NpData.table [exReading 95, exReading 80])
  exact ⟨h.1, h.2.2.2.1, h.2.2.2.2.2.2 (exReading 95) (by decide)⟩

set_option maxRecDepth 16384 in
/-- C3: generate_report is a total pure function and returns, for every
statistics mapping, abnormal-counts mapping and total, exactly the
literal template of the specification with the total, the three averages
with their units, and the three counts substituted at their stated
positions. -/
theorem claim_C3_report_template (stats : StatsSummary) (abnormal : AbnormalCounts)
    (total : Nat) :
    generate_report stats abnormal total = spec_report_template stats abnormal total := by
  apply stringEqOfData
  simp only [generate_report, spec_report_template, joinLines, strDataAppend, natStr_data,
    List.append_assoc]
  rfl

/-- C4: on every nonempty dataset each of the three averages is rendered
with exactly one digit after the decimal point, whatever the magnitude of
the values, and the two-row example with heart rates 95 and 80 renders the
average heart rate as the string 87.5. -/
theorem claim_C4_one_decimal :
    (∀ d : NpData, d.rows ≠ [] →
        oneDecimalString (calculate_statistics d).avg_heart_rate ∧
        oneDecimalString (calculate_statistics d).avg_systolic_bp ∧
        oneDecimalString (calculate_statistics d).avg_glucose)
  ∧ (calculate_statistics (NpData.table [exReading 95, exReading 80])).avg_heart_rate
      = "87.5" := by
  constructor
  · intro d hd
    have hne : ∀ f : Reading → Int, (d.col f).isEmpty = false := by
      intro f
      cases hrows : d.rows with
      | nil => exact absurd hrows hd
      | cons a t => simp [NpData.col, hrows]
    refine ⟨?_, ?_, ?_⟩ <;>
      · simp only [calculate_statistics, npMean1f, hne, Bool.false_eq_true, if_false]
        exact oneDecimal_pyFormat1f _ _
  · decide

/-- Witness for C4: the one-decimal shape and the 87.5 example at the
concrete two-row dataset. -/
theorem claim_C4_one_decimal_witness :
    oneDecimalString
      (calculate_statistics (NpData.table [exReading 95, exReading 80])).avg_heart_rate
  ∧ (calculate_statistics (NpData.table [exReading 95, exReading 80])).avg_heart_rate
      = "87.5" :=
  ⟨(claim_C4_one_decimal.1 (NpData.table [exReading 95, exReading 80])
      (List.cons_ne_nil _ _)).1,
   claim_C4_one_decimal.2⟩

/-- C9: on the empty dataset calculate_statistics raises no error and
returns the mapping whose three values are all the string nan, with no
decimal digit. -/
theorem claim_C9_empty_dataset_nan :
    calculate_statistics (NpData.table []) =
      { avg_heart_rate := "nan", avg_systolic_bp := "nan", avg_glucose := "nan" } := rfl

/-- C5 counterexample: a data row whose integer heart-rate field holds the
unparseable text abc does not make load_data fail; the load succeeds and
the dataset carries the substituted filling value -1 in that field, so a
type mismatch is imputed rather than rejected. -/
theorem claim_C5_counterexample :
    (load_data (some badTypeFile)).map (fun d => d.rows.map (fun r => r.heart_rate))
      = .ok [-1, 88] := rfl

/-- C5 amended: load_data fails with the parse error (modelling the
ValueError genfromtxt raises with invalid_raise) exactly for a row whose
field count, as the loader sees the row (after discarding any
hash-comment suffix and surrounding whitespace, for a row such
stripping does not leave empty and hence skipped), differs from eight;
a field whose text does not match the column type does not cause a
failure but is replaced by a filling value, -1 for integer columns. -/
theorem claim_C5_parse_errors :
    (∀ header line : List Char, '\n' ∉ header → '\n' ∉ line →
        lineCore line ≠ [] →
        (splitOnC ',' (lineCore line)).length ≠ 8 →
        load_data (some (String.mk (joinNL [header, line]))) = .error .parseError)
  ∧ (load_data (some badTypeFile)).map (fun d => d.rows.map (fun r => r.heart_rate))
      = .ok [-1, 88] := by
  constructor
  · intro header line hh hl hcore hlen
    show (parseLines ((splitOnC '\n' (joinNL [header, line])).drop 1)).map squeeze1
        = .error .parseError
    rw [splitOnC_joinNL_pair hh hl]
    show (parseLines [line]).map squeeze1 = .error .parseError
    rw [parseLines_cons_badlen line [] hcore hlen]
    rfl
  · rfl

/-- Witness for C5: a two-field data row makes load_data fail with the
parse error. -/
theorem claim_C5_parse_errors_witness :
    load_data (some (String.mk (joinNL ["h".data, "P001,2024,95".data])))
      = .error .parseError :=
  claim_C5_parse_errors.1 "h".data "P001,2024,95".data
    (by decide) (by decide) (by decide) (by decide)

/-- C6: when the input path is missing or unreadable the whole run fails
with the file-access error and the file system, in particular the output
file, is untouched. -/
theorem claim_C6_missing_file (fs : FS) (h : fs.files inputPath = none) :
    main fs = (fs, some RunError.fileAccess)
  ∧ (main fs).1.files outputPath = fs.files outputPath := by
  have h1 : main fs = (fs, some RunError.fileAccess) := by
    unfold main
    rw [h]
    rfl
  exact ⟨h1, by rw [h1]⟩

/-- Witness for C6 on the file system with no files at all. -/
theorem claim_C6_missing_file_witness :
    main emptyFS = (emptyFS, some RunError.fileAccess)
  ∧ (main emptyFS).1.files outputPath = emptyFS.files outputPath :=
  claim_C6_missing_file emptyFS rfl

/-- C7 counterexample: on the bare destination report.txt save_report does
not create directories and write the file; it fails and writes nothing,
so the claim does not hold for every destination path. -/
theorem claim_C7_counterexample :
    (save_report "hello" "report.txt" emptyFS).2 = some SaveError.fileNotFound
  ∧ (save_report "hello" "report.txt" emptyFS).1.files "report.txt" = none := by
  constructor
  · rfl
  · rfl

/-- C7 amended: for every destination path whose dirname is nonempty,
save_report creates the whole chain of parent directories, then writes
the report verbatim to the destination, overwriting any existing file and
leaving every other file unchanged. -/
theorem claim_C7_save_report (fs : FS) (report filename : String)
    (h : dirname filename ≠ "") :
    (save_report report filename fs).2 = none
  ∧ (save_report report filename fs).1.files filename = some report
  ∧ (∀ p, p ≠ filename → (save_report report filename fs).1.files p = fs.files p)
  ∧ ∀ a ∈ dirChain (dirname filename), (save_report report filename fs).1.dirs a = true := by
  unfold save_report
  rw [if_neg h]
  refine ⟨rfl, by simp, ?_, ?_⟩
  · intro p hp
    simp [hp]
  · intro a ha
    simp [ha]

/-- Witness for C7 on the pipeline output path over the empty file
system. -/
theorem claim_C7_save_report_witness :
    (save_report "hello" outputPath emptyFS).2 = none
  ∧ (save_report "hello" outputPath emptyFS).1.files outputPath = some "hello"
  ∧ (save_report "hello" outputPath emptyFS).1.dirs "output" = true := by
  have h := claim_C7_save_report emptyFS "hello" outputPath (by decide)
  exact ⟨h.1, h.2.1, h.2.2.2 "output" (by decide)⟩

/-- C10: save_report fails before writing anything exactly when the
dirname of the destination is empty, which is the case for every bare
filename such as report.txt; it succeeds exactly when the destination has
a parent directory component. -/
theorem claim_C10_bare_filename (fs : FS) (report filename : String) :
    (dirname filename = "" → save_report report filename fs = (fs, some SaveError.fileNotFound))
  ∧ ((save_report report filename fs).2 = none ↔ dirname filename ≠ "")
  ∧ dirname "report.txt" = "" := by
  refine ⟨?_, ?_, by decide⟩
  · intro h
    simp [save_report, h]
  · by_cases h : dirname filename = "" <;> simp [save_report, h]

/-- Witness for C10: the concrete bare filename fails with nothing
written. -/
theorem claim_C10_bare_filename_witness :
    save_report "r" "report.txt" emptyFS = (emptyFS, some SaveError.fileNotFound) :=
  (claim_C10_bare_filename emptyFS "r" "report.txt").1 (by decide)

/-- C2 at the failing input: a well-formed file holding a header row and
exactly one valid data row makes the pipeline abort with a type error
(genfromtxt squeezes the one-row result to a zero-dimensional array, on
which len raises), so no report stating the total is produced and the
output file stays absent. -/
theorem claim_C2_total_readings_failing :
    (main oneRowFS).2 = some RunError.typeError
  ∧ (main oneRowFS).1.files outputPath = none := by
  constructor
  · rfl
  · rfl

/-- What one run of main does when the load yields a table: the output
file receives the report of that table and nothing else changes. -/
theorem main_table (fs : FS) (rows : List Reading)
    (hload : load_data (fs.files inputPath) = .ok (.table rows)) :
    main fs =
      ({ files := fun p => if p = outputPath
            then some (generate_report (calculate_statistics (NpData.table rows))
              (find_abnormal_readings (NpData.table rows)) rows.length)
            else fs.files p
       , dirs := fun p => if p ∈ dirChain (dirname outputPath) then true else fs.dirs p }, none) := by
  unfold main
  rw [hload]
  show (match save_report (generate_report (calculate_statistics (NpData.table rows))
      (find_abnormal_readings (NpData.table rows)) rows.length) outputPath fs with
    | (fs2, none) => (fs2, none)
    | (_, some _) => (fs, some RunError.save)) = _
  unfold save_report
  rw [if_neg (by decide : ¬(dirname outputPath = ""))]

/-- C8: the pipeline is deterministic over a fixed input file: after a
successful run, running it again reads the same input (the run wrote only
the output path) and rewrites the output file with byte-identical
content. -/
theorem claim_C8_deterministic (fs : FS) (h : (main fs).2 = none) :
    (main (main fs).1).2 = none
  ∧ (main (main fs).1).1.files outputPath = (main fs).1.files outputPath := by
  cases hload : load_data (fs.files inputPath) with
  | error e =>
    exfalso
    unfold main at h
    rw [hload] at h
    cases e <;> simp at h
  | ok data =>
    cases data with
    | record r =>
      exfalso
      unfold main at h
      rw [hload] at h
      simp [npLen] at h
    | table rows =>
      have h1 := main_table fs rows hload
      have hin : ((main fs).1).files inputPath = fs.files inputPath := by
        rw [h1]
        simp only []
        rw [if_neg (by decide : ¬(inputPath = outputPath))]
      have h2 := main_table (main fs).1 rows (by rw [hin, hload])
      constructor
      · rw [h2]
      · rw [h2, h1]
        simp

/-- Witness for C8 on a concrete two-row input file: the second run
succeeds and leaves the same output bytes as the first. -/
theorem claim_C8_deterministic_witness :
    (main (main twoRowFS).1).2 = none
  ∧ (main (main twoRowFS).1).1.files outputPath = (main twoRowFS).1.files outputPath :=
  claim_C8_deterministic twoRowFS (by decide)

end HealthData
